import Mathlib

/-!
Shallow embedding of `pty-closure-rs` (`src/lib.rs`): the single operation
`run_in_pty` forks the process into a pseudoterminal (`forkpty`), runs the
supplied closure in the child and terminates the child with the closure's
status code, while the parent loops on `waitpid` until a terminal status is
observed and translates it into a `Result`.

The OS is modelled by explicit oracles: the outcome of `forkpty`, and, for
each process identifier, the list of responses successive `waitpid` calls
on that identifier would produce.  The wait loop consumes that list one
response per query.  The embedding is instrumented: it records how many
times the closure is invoked and the identifier passed to each wait query.
-/

namespace PtyClosure

/-- OS error code (`nix::errno::Errno`). -/
abbrev Errno := Nat

/-- Process identifier (`nix::unistd::Pid`, a `pid_t`). -/
abbrev Pid := Int

/-- OS signals (`nix::sys::signal::Signal`). -/
inductive Signal
  | SIGHUP | SIGINT | SIGQUIT | SIGILL | SIGTRAP | SIGABRT | SIGBUS
  | SIGFPE | SIGKILL | SIGUSR1 | SIGSEGV | SIGUSR2 | SIGPIPE | SIGALRM
  | SIGTERM | SIGSTKFLT | SIGCHLD | SIGCONT | SIGSTOP | SIGTSTP | SIGTTIN
  | SIGTTOU | SIGURG | SIGXCPU | SIGXFSZ | SIGVTALRM | SIGPROF | SIGWINCH
  | SIGIO | SIGPWR | SIGSYS
deriving DecidableEq, Repr

/-- `nix::sys::wait::WaitStatus`: the status reported by a successful
`waitpid` call.  `Exited` carries an `i32` status code, `Signaled` carries
the killing signal and the generated-core-dump flag. -/
inductive WaitStatus
  | Exited (pid : Pid) (status_code : Int)
  | Signaled (pid : Pid) (signal : Signal) (generated_core_dump : Bool)
  | Stopped (pid : Pid) (signal : Signal)
  | Continued (pid : Pid)
  | PtraceEvent (pid : Pid) (signal : Signal) (event : Int)
  | PtraceSyscall (pid : Pid)
  | StillAlive
deriving DecidableEq, Repr

/-- One `waitpid` call either fails with an `Errno` or reports a
`WaitStatus` (`waitpid(child, None)` in the source, a `nix::Result`). -/
inductive WaitResult
  | ok (status : WaitStatus)
  | err (e : Errno)
deriving DecidableEq, Repr

/-- The error type of the crate (`Error` in `src/lib.rs`). -/
inductive Error
  | Fork (e : Errno)
  | Wait (e : Errno)
  | KilledBySignal (s : Signal)
  | NonZeroExitCode (c : Int)
deriving DecidableEq, Repr

/-- `nix::unistd::ForkResult`: which side of the fork this process is on. -/
inductive ForkResult
  | Child
  | Parent (child : Pid)
deriving DecidableEq, Repr

/-- `nix::pty::ForkptyResult`: the master-side descriptor of the new
pseudoterminal together with the fork result. -/
structure ForkptyResult where
  master : Int
  fork_result : ForkResult
deriving DecidableEq, Repr

/-- A `waitpid` response is terminal for the loop when it is a failing
query, a normal exit, or a signal-induced death; every other status keeps
the loop running. -/
def isTerminal : WaitResult → Bool
  | .err _ => true
  | .ok (.Exited _ _) => true
  | .ok (.Signaled _ _ _) => true
  | .ok (.Stopped _ _) => false
  | .ok (.Continued _) => false
  | .ok (.PtraceEvent _ _ _) => false
  | .ok (.PtraceSyscall _) => false
  | .ok .StillAlive => false

/-- The parent-side wait loop of `run_in_pty` (`src/lib.rs`, the `loop`
in the `ForkResult::Parent` arm), run against the list of responses the
successive `waitpid(child, None)` calls produce.  Returns the identifiers
passed to the wait queries that were issued, and the loop's result:
`some r` once a terminal response is consumed, `none` if the response list
is exhausted with the loop still waiting. -/
def wait_loop (child : Pid) : List WaitResult → List Pid × Option (Except Error Unit)
  | [] => ([], none)
  | .err e :: _ => ([child], some (.error (.Wait e)))
  | .ok (.Exited _ status_code) :: _ =>
      if status_code = 0 then ([child], some (.ok ()))
      else ([child], some (.error (.NonZeroExitCode status_code)))
  | .ok (.Signaled _ signal _generated_core_dump) :: _ =>
      ([child], some (.error (.KilledBySignal signal)))
  | .ok (.Stopped _ _) :: rest =>
      let w := wait_loop child rest
      (child :: w.1, w.2)
  | .ok (.Continued _) :: rest =>
      let w := wait_loop child rest
      (child :: w.1, w.2)
  | .ok (.PtraceEvent _ _ _) :: rest =>
      let w := wait_loop child rest
      (child :: w.1, w.2)
  | .ok (.PtraceSyscall _) :: rest =>
      let w := wait_loop child rest
      (child :: w.1, w.2)
  | .ok .StillAlive :: rest =>
      let w := wait_loop child rest
      (child :: w.1, w.2)

instance : DecidableEq (Except Error Unit)
  | .ok (), .ok () => isTrue rfl
  | .ok (), .error _ => isFalse (by simp)
  | .error _, .ok () => isFalse (by simp)
  | .error e, .error f =>
      if h : e = f then isTrue (by rw [h]) else isFalse (by simp [h])

/-- How a call of `run_in_pty` ends: the parent-side continuation returns
a `Result`, the child-side continuation terminates the process via
`std::process::exit`, or the wait loop is still blocked (its oracle was
exhausted without a terminal response). -/
inductive RunOutcome
  | returns (r : Except Error Unit)
  | exits (code : Int)
  | stillWaiting
deriving DecidableEq, Repr

/-- Instrumented result of one invocation of `run_in_pty`: the outcome,
the number of times the closure was invoked in this process, and the
identifier passed to each wait query issued, in order. -/
structure RunTrace where
  outcome : RunOutcome
  func_calls : Nat
  wait_pids : List Pid
deriving DecidableEq, Repr

/-- `run_in_pty` from `src/lib.rs`.  `forkpty_result` is the OS's answer
to the `forkpty(None, None)` call; `func` is the closure
(`FnOnce() -> Result<(), i32>`); `os_wait pid` is the list of responses
successive `waitpid(pid, None)` calls would produce. -/
def run_in_pty (forkpty_result : Except Errno ForkptyResult)
    (func : Unit → Except Int Unit)
    (os_wait : Pid → List WaitResult) : RunTrace :=
  match forkpty_result with
  | .error e => ⟨.returns (.error (.Fork e)), 0, []⟩
  | .ok fr =>
    match fr.fork_result with
    | .Child =>
        let exit_code : Int :=
          match func () with
          | .ok _ => 0
          | .error code => code
        ⟨.exits exit_code, 1, []⟩
    | .Parent child =>
        let w := wait_loop child (os_wait child)
        ⟨match w.2 with
         | some r => .returns r
         | none => .stillWaiting,
         0, w.1⟩

/-- Modelled from the spec: "the OS truncates process exit codes to 8
bits" — the status code the parent observes for a child that requested
exit code `c` is `c` reduced modulo `2^8`.  This OS-level channel is not
part of the repository's code; it is the documented behaviour of the
process-exit status word. -/
def os_truncate (c : Int) : Int := c % 256

/-- Replace the generated-core-dump flag of a `Signaled` status by
`false`, leaving every other response unchanged: two response lists agree
up to core-dump flags iff their images under this map are equal. -/
def scrub_core : WaitResult → WaitResult
  | .ok (.Signaled pid signal _) => .ok (.Signaled pid signal false)
  | r => r

/-! ### Helper lemmas about the wait loop -/

theorem wait_loop_cons_nonterminal (child : Pid) (r : WaitResult) (rest : List WaitResult)
    (h : isTerminal r = false) :
    wait_loop child (r :: rest) =
      (child :: (wait_loop child rest).1, (wait_loop child rest).2) := by
  cases r with
  | err e => simp [isTerminal] at h
  | ok s => cases s <;> simp_all [isTerminal, wait_loop]

theorem wait_loop_append_nonterminal (child : Pid) (pre l : List WaitResult)
    (h : ∀ r ∈ pre, isTerminal r = false) :
    wait_loop child (pre ++ l) =
      (List.replicate pre.length child ++ (wait_loop child l).1, (wait_loop child l).2) := by
  induction pre with
  | nil => simp
  | cons r pre ih =>
    have hr : isTerminal r = false := h r (by simp)
    have hpre : ∀ x ∈ pre, isTerminal x = false := fun x hx => h x (by simp [hx])
    simp [wait_loop_cons_nonterminal child r _ hr, ih hpre, List.replicate_succ]

theorem wait_loop_exited (child pid : Pid) (c : Int) (rest : List WaitResult) :
    wait_loop child (WaitResult.ok (WaitStatus.Exited pid c) :: rest) =
      ([child], some (if c = 0 then Except.ok ()
        else Except.error (Error.NonZeroExitCode c))) := by
  by_cases h : c = 0 <;> simp [wait_loop, h]

theorem wait_loop_signaled (child pid : Pid) (s : Signal) (cd : Bool)
    (rest : List WaitResult) :
    wait_loop child (WaitResult.ok (WaitStatus.Signaled pid s cd) :: rest) =
      ([child], some (Except.error (Error.KilledBySignal s))) := rfl

theorem wait_loop_err (child : Pid) (e : Errno) (rest : List WaitResult) :
    wait_loop child (WaitResult.err e :: rest) =
      ([child], some (Except.error (Error.Wait e))) := rfl

theorem wait_loop_pids (child : Pid) (resps : List WaitResult) :
    ∀ p ∈ (wait_loop child resps).1, p = child := by
  induction resps with
  | nil => simp [wait_loop]
  | cons r rest ih =>
    by_cases hr : isTerminal r = true
    · cases r with
      | err e => simp [wait_loop]
      | ok s =>
        cases s with
        | Exited pid c => by_cases hc : c = 0 <;> simp [wait_loop, hc]
        | Signaled pid sg cd => simp [wait_loop]
        | Stopped pid sg => simp [isTerminal] at hr
        | Continued pid => simp [isTerminal] at hr
        | PtraceEvent pid sg ev => simp [isTerminal] at hr
        | PtraceSyscall pid => simp [isTerminal] at hr
        | StillAlive => simp [isTerminal] at hr
    · rw [wait_loop_cons_nonterminal child r rest (by simpa using hr)]
      intro p hp
      rcases List.mem_cons.mp hp with h | h
      · exact h
      · exact ih p h

theorem wait_loop_some_split (child : Pid) (resps : List WaitResult)
    (res : Except Error Unit) (h : (wait_loop child resps).2 = some res) :
    ∃ pre r rest, resps = pre ++ r :: rest ∧
      (∀ x ∈ pre, isTerminal x = false) ∧ isTerminal r = true := by
  induction resps with
  | nil => simp [wait_loop] at h
  | cons r rest ih =>
    by_cases hr : isTerminal r = true
    · exact ⟨[], r, rest, rfl, by simp, hr⟩
    · rw [wait_loop_cons_nonterminal child r rest (by simpa using hr)] at h
      obtain ⟨pre, r2, rest2, heq, hpre, hterm⟩ := ih h
      refine ⟨r :: pre, r2, rest2, by simp [heq], ?_, hterm⟩
      intro x hx
      rcases List.mem_cons.mp hx with h2 | h2
      · exact h2 ▸ (by simpa using hr)
      · exact hpre x h2

theorem wait_loop_nonzero (child : Pid) (resps : List WaitResult) (c : Int)
    (h : (wait_loop child resps).2 = some (Except.error (Error.NonZeroExitCode c))) :
    c ≠ 0 := by
  induction resps with
  | nil => simp [wait_loop] at h
  | cons r rest ih =>
    by_cases hr : isTerminal r = true
    · cases r with
      | err e => simp [wait_loop] at h
      | ok s =>
        cases s with
        | Exited pid code =>
          by_cases hc : code = 0
          · simp [wait_loop, hc] at h
          · simp [wait_loop, hc] at h
            omega
        | Signaled pid sg cd => simp [wait_loop] at h
        | Stopped pid sg => simp [isTerminal] at hr
        | Continued pid => simp [isTerminal] at hr
        | PtraceEvent pid sg ev => simp [isTerminal] at hr
        | PtraceSyscall pid => simp [isTerminal] at hr
        | StillAlive => simp [isTerminal] at hr
    · rw [wait_loop_cons_nonterminal child r rest (by simpa using hr)] at h
      exact ih h

theorem wait_loop_scrub (child : Pid) (resps : List WaitResult) :
    wait_loop child (List.map scrub_core resps) = wait_loop child resps := by
  induction resps with
  | nil => rfl
  | cons r rest ih =>
    cases r with
    | err e => simp [scrub_core, wait_loop]
    | ok s =>
      cases s with
      | Exited pid c => simp [scrub_core, wait_loop]
      | Signaled pid sg cd => simp [scrub_core, wait_loop]
      | Stopped pid sg => simp [scrub_core, wait_loop, ih]
      | Continued pid => simp [scrub_core, wait_loop, ih]
      | PtraceEvent pid sg ev => simp [scrub_core, wait_loop, ih]
      | PtraceSyscall pid => simp [scrub_core, wait_loop, ih]
      | StillAlive => simp [scrub_core, wait_loop, ih]

/-! ### Claim theorems -/

/-- C1: if the first terminal status observed by the parent-side wait loop is
exited-with-code `c`, then `run_in_pty` returns `Ok(())` when `c = 0` and
`Err(Error::NonZeroExitCode c)` when `c ≠ 0`, with the carried code equal
to `c`. -/
theorem C1_exit_code_translation (master : Int) (child : Pid)
    (func : Unit → Except Int Unit) (os_wait : Pid → List WaitResult)
    (pre rest : List WaitResult) (pid : Pid) (c : Int)
    (hw : os_wait child = pre ++ WaitResult.ok (WaitStatus.Exited pid c) :: rest)
    (hpre : ∀ r ∈ pre, isTerminal r = false) :
    (c = 0 →
      (run_in_pty (Except.ok ⟨master, ForkResult.Parent child⟩) func os_wait).outcome =
        RunOutcome.returns (Except.ok ())) ∧
    (c ≠ 0 →
      (run_in_pty (Except.ok ⟨master, ForkResult.Parent child⟩) func os_wait).outcome =
        RunOutcome.returns (Except.error (Error.NonZeroExitCode c))) := by
  constructor <;> intro hc <;>
    simp [run_in_pty, hw, wait_loop_append_nonterminal child pre _ hpre,
      wait_loop_exited, hc]

theorem C1_witness :
    (run_in_pty (Except.ok ⟨5, ForkResult.Parent 9⟩) (fun _ => Except.ok ())
        (fun _ => [WaitResult.ok (WaitStatus.Exited 9 7)])).outcome =
      RunOutcome.returns (Except.error (Error.NonZeroExitCode 7)) :=
  (C1_exit_code_translation 5 9 (fun _ => Except.ok ())
      (fun _ => [WaitResult.ok (WaitStatus.Exited 9 7)]) [] [] 9 7 rfl
      (by simp)).2 (by decide)

/-- C2: if the first terminal status observed by the parent-side wait loop is
killed-by-signal `s`, then `run_in_pty` returns
`Err(Error::KilledBySignal s)` carrying exactly that signal. -/
theorem C2_signal_translation (master : Int) (child : Pid)
    (func : Unit → Except Int Unit) (os_wait : Pid → List WaitResult)
    (pre rest : List WaitResult) (pid : Pid) (s : Signal) (cd : Bool)
    (hw : os_wait child = pre ++ WaitResult.ok (WaitStatus.Signaled pid s cd) :: rest)
    (hpre : ∀ r ∈ pre, isTerminal r = false) :
    (run_in_pty (Except.ok ⟨master, ForkResult.Parent child⟩) func os_wait).outcome =
      RunOutcome.returns (Except.error (Error.KilledBySignal s)) := by
  simp [run_in_pty, hw, wait_loop_append_nonterminal child pre _ hpre,
    wait_loop_signaled]

theorem C2_witness :
    (run_in_pty (Except.ok ⟨5, ForkResult.Parent 9⟩) (fun _ => Except.ok ())
        (fun _ => [WaitResult.ok (WaitStatus.Signaled 9 Signal.SIGKILL false)])).outcome =
      RunOutcome.returns (Except.error (Error.KilledBySignal Signal.SIGKILL)) :=
  C2_signal_translation 5 9 (fun _ => Except.ok ())
    (fun _ => [WaitResult.ok (WaitStatus.Signaled 9 Signal.SIGKILL false)]) [] [] 9
    Signal.SIGKILL false rfl (by simp)

/-- C3: if `forkpty` fails with OS error code `e`, the call returns
`Err(Error::Fork e)` immediately: the closure is never invoked, no wait
query is issued, and the trace records no other effect. -/
theorem C3_fork_failure (e : Errno) (func : Unit → Except Int Unit)
    (os_wait : Pid → List WaitResult) :
    run_in_pty (Except.error e) func os_wait =
      ⟨RunOutcome.returns (Except.error (Error.Fork e)), 0, []⟩ := rfl

/-- C4: if a wait query fails with OS error code `e` before any terminal
status was observed, the call returns `Err(Error::Wait e)` and the loop
issues no further wait query after the failing one: exactly
`pre.length + 1` queries are issued, all on the child. -/
theorem C4_wait_failure (master : Int) (child : Pid)
    (func : Unit → Except Int Unit) (os_wait : Pid → List WaitResult)
    (pre rest : List WaitResult) (e : Errno)
    (hw : os_wait child = pre ++ WaitResult.err e :: rest)
    (hpre : ∀ r ∈ pre, isTerminal r = false) :
    (run_in_pty (Except.ok ⟨master, ForkResult.Parent child⟩) func os_wait).outcome =
      RunOutcome.returns (Except.error (Error.Wait e)) ∧
    (run_in_pty (Except.ok ⟨master, ForkResult.Parent child⟩) func os_wait).wait_pids =
      List.replicate (pre.length + 1) child := by
  constructor <;>
    simp [run_in_pty, hw, wait_loop_append_nonterminal child pre _ hpre,
      wait_loop_err, List.replicate_succ']

theorem C4_witness :
    (run_in_pty (Except.ok ⟨5, ForkResult.Parent 9⟩) (fun _ => Except.ok ())
        (fun _ => [WaitResult.ok WaitStatus.StillAlive, WaitResult.err 10])).wait_pids =
      List.replicate 2 9 :=
  (C4_wait_failure 5 9 (fun _ => Except.ok ())
      (fun _ => [WaitResult.ok WaitStatus.StillAlive, WaitResult.err 10])
      [WaitResult.ok WaitStatus.StillAlive] [] 10 rfl (by decide)).2

/-- C5: the wait loop never returns upon observing a non-terminal status
(Stopped, Continued, PtraceEvent, PtraceSyscall, StillAlive): it keeps
waiting and issues another wait query; and whenever the loop does return a
result, some consumed response was terminal (an exit, a signal-induced
death, or a failing wait query). -/
theorem C5_nonterminal_absorbed :
    (∀ (child : Pid) (r : WaitResult) (rest : List WaitResult),
      isTerminal r = false →
        (wait_loop child (r :: rest)).2 = (wait_loop child rest).2 ∧
        (wait_loop child (r :: rest)).1 = child :: (wait_loop child rest).1) ∧
    (∀ (child : Pid) (resps : List WaitResult) (res : Except Error Unit),
      (wait_loop child resps).2 = some res → ∃ r ∈ resps, isTerminal r = true) := by
  constructor
  · intro child r rest h
    rw [wait_loop_cons_nonterminal child r rest h]
    exact ⟨rfl, rfl⟩
  · intro child resps res h
    obtain ⟨pre, r, rest, heq, -, hterm⟩ := wait_loop_some_split child resps res h
    exact ⟨r, by simp [heq], hterm⟩

theorem C5_witness :
    (wait_loop 9 (WaitResult.ok WaitStatus.StillAlive ::
        [WaitResult.ok (WaitStatus.Exited 9 0)])).2 =
      (wait_loop 9 [WaitResult.ok (WaitStatus.Exited 9 0)]).2 :=
  (C5_nonterminal_absorbed.1 9 (WaitResult.ok WaitStatus.StillAlive)
    [WaitResult.ok (WaitStatus.Exited 9 0)] (by decide)).1

/-- C6: the child-side continuation invokes the closure exactly once and
then terminates the child process (the outcome is always a process exit,
never an ordinary return): with exit status 0 if the closure returns
success, and with exit status `c` if it returns failure code `c`. -/
theorem C6_child_exit (master : Int) (func : Unit → Except Int Unit)
    (os_wait : Pid → List WaitResult) :
    (run_in_pty (Except.ok ⟨master, ForkResult.Child⟩) func os_wait).func_calls = 1 ∧
    (∃ code, (run_in_pty (Except.ok ⟨master, ForkResult.Child⟩) func os_wait).outcome =
      RunOutcome.exits code) ∧
    (func () = Except.ok () →
      (run_in_pty (Except.ok ⟨master, ForkResult.Child⟩) func os_wait).outcome =
        RunOutcome.exits 0) ∧
    (∀ c : Int, func () = Except.error c →
      (run_in_pty (Except.ok ⟨master, ForkResult.Child⟩) func os_wait).outcome =
        RunOutcome.exits c) := by
  refine ⟨rfl, ?_, ?_, ?_⟩
  · cases hf : func () with
    | ok u => exact ⟨0, by simp [run_in_pty, hf]⟩
    | error c => exact ⟨c, by simp [run_in_pty, hf]⟩
  · intro hf
    simp [run_in_pty, hf]
  · intro c hf
    simp [run_in_pty, hf]

theorem C6_witness :
    (run_in_pty (Except.ok ⟨0, ForkResult.Child⟩) (fun _ => Except.error 23)
        (fun _ => [])).outcome = RunOutcome.exits 23 :=
  (C6_child_exit 0 (fun _ => Except.error 23) (fun _ => [])).2.2.2 23 rfl

/-- C7: for a failure code `c` outside the 8-bit range the child exits
with `c`, the OS-level channel truncates the status to `c % 2^8`, a value
different from `c`, and the parent-side loop translates the truncated
value with no compensation: it returns a result carrying `c % 2^8`
(success when that residue is 0), never the original `c`. -/
theorem C7_exit_code_truncation (c : Int) (h : c < 0 ∨ 256 ≤ c) (master : Int)
    (child pid : Pid) (func : Unit → Except Int Unit)
    (hf : func () = Except.error c) (os_wait : Pid → List WaitResult) :
    (run_in_pty (Except.ok ⟨master, ForkResult.Child⟩) func os_wait).outcome =
      RunOutcome.exits c ∧
    os_truncate c = c % 256 ∧
    os_truncate c ≠ c ∧
    (run_in_pty (Except.ok ⟨master, ForkResult.Parent child⟩) func
        (fun _ => [WaitResult.ok (WaitStatus.Exited pid (os_truncate c))])).outcome =
      RunOutcome.returns (if os_truncate c = 0 then Except.ok ()
        else Except.error (Error.NonZeroExitCode (os_truncate c))) := by
  refine ⟨by simp [run_in_pty, hf], rfl, ?_, ?_⟩
  · have h0 : 0 ≤ c % 256 := Int.emod_nonneg c (by norm_num)
    have h1 : c % 256 < 256 := Int.emod_lt_of_pos c (by norm_num)
    unfold os_truncate
    omega
  · simp [run_in_pty, wait_loop_exited]

theorem C7_witness :
    os_truncate 300 ≠ 300 ∧
    (run_in_pty (Except.ok ⟨0, ForkResult.Parent 9⟩) (fun _ => Except.error 300)
        (fun _ => [WaitResult.ok (WaitStatus.Exited 9 (os_truncate 300))])).outcome =
      RunOutcome.returns (if os_truncate 300 = 0 then Except.ok ()
        else Except.error (Error.NonZeroExitCode (os_truncate 300))) :=
  ⟨(C7_exit_code_truncation 300 (by norm_num) 0 9 9 (fun _ => Except.error 300) rfl
      (fun _ => [])).2.2.1,
   (C7_exit_code_truncation 300 (by norm_num) 0 9 9 (fun _ => Except.error 300) rfl
      (fun _ => [])).2.2.2⟩

/-- C8: every wait query issued by the parent-side loop uses exactly the
child identifier produced by the fork; whenever the loop returns a result,
the consumed responses are a run of non-terminal statuses followed by
exactly one terminal status; and the call's result depends only on the
wait responses of that one child — oracles agreeing on the child produce
identical traces. -/
theorem C8_waits_only_on_child (master : Int) (child : Pid)
    (func : Unit → Except Int Unit) (os_wait : Pid → List WaitResult) :
    (∀ p ∈ (run_in_pty (Except.ok ⟨master, ForkResult.Parent child⟩) func
        os_wait).wait_pids, p = child) ∧
    (∀ res : Except Error Unit, (wait_loop child (os_wait child)).2 = some res →
      ∃ pre r rest, os_wait child = pre ++ r :: rest ∧
        (∀ x ∈ pre, isTerminal x = false) ∧ isTerminal r = true) ∧
    (∀ os_wait2 : Pid → List WaitResult, os_wait child = os_wait2 child →
      run_in_pty (Except.ok ⟨master, ForkResult.Parent child⟩) func os_wait =
        run_in_pty (Except.ok ⟨master, ForkResult.Parent child⟩) func os_wait2) := by
  refine ⟨?_, ?_, ?_⟩
  · intro p hp
    exact wait_loop_pids child (os_wait child) p (by simpa [run_in_pty] using hp)
  · intro res h
    exact wait_loop_some_split child (os_wait child) res h
  · intro os_wait2 h2
    simp [run_in_pty, h2]

theorem C8_witness :
    run_in_pty (Except.ok ⟨0, ForkResult.Parent 4⟩) (fun _ => Except.ok ())
        (fun _ => [WaitResult.ok (WaitStatus.Exited 4 0)]) =
      run_in_pty (Except.ok ⟨0, ForkResult.Parent 4⟩) (fun _ => Except.ok ())
        (fun p => if p = 4 then [WaitResult.ok (WaitStatus.Exited 4 0)] else []) :=
  (C8_waits_only_on_child 0 4 (fun _ => Except.ok ())
      (fun _ => [WaitResult.ok (WaitStatus.Exited 4 0)])).2.2
    (fun p => if p = 4 then [WaitResult.ok (WaitStatus.Exited 4 0)] else [])
    (by decide)

/-- C9: implicit invariant — `Error::NonZeroExitCode c` is only ever
produced on the branch where the observed exit status is non-zero, so any
such error returned by `run_in_pty` carries `c ≠ 0`. -/
theorem C9_nonzero_exit_code_invariant (forkpty_result : Except Errno ForkptyResult)
    (func : Unit → Except Int Unit) (os_wait : Pid → List WaitResult) (c : Int)
    (h : (run_in_pty forkpty_result func os_wait).outcome =
      RunOutcome.returns (Except.error (Error.NonZeroExitCode c))) :
    c ≠ 0 := by
  match forkpty_result with
  | .error e => simp [run_in_pty] at h
  | .ok ⟨m, .Child⟩ => simp [run_in_pty] at h
  | .ok ⟨m, .Parent child⟩ =>
    simp only [run_in_pty] at h
    cases hw : (wait_loop child (os_wait child)).2 with
    | none => rw [hw] at h; simp at h
    | some r =>
      rw [hw] at h
      simp at h
      exact wait_loop_nonzero child (os_wait child) c (by rw [hw, h])

theorem C9_witness : (7 : Int) ≠ 0 :=
  C9_nonzero_exit_code_invariant (Except.ok ⟨0, ForkResult.Parent 3⟩)
    (fun _ => Except.ok ()) (fun _ => [WaitResult.ok (WaitStatus.Exited 3 7)]) 7
    (by decide)

/-- C10: the generated-core-dump flag of a `Signaled` status is ignored —
two runs whose wait-response oracles differ only in that boolean produce
identical traces (`KilledBySignal` depends only on the signal value). -/
theorem C10_core_dump_ignored (forkpty_result : Except Errno ForkptyResult)
    (func : Unit → Except Int Unit) (w1 w2 : Pid → List WaitResult)
    (h : ∀ p : Pid, List.map scrub_core (w1 p) = List.map scrub_core (w2 p)) :
    run_in_pty forkpty_result func w1 = run_in_pty forkpty_result func w2 := by
  match forkpty_result with
  | .error e => rfl
  | .ok ⟨m, .Child⟩ => rfl
  | .ok ⟨m, .Parent child⟩ =>
    have hcw : wait_loop child (w1 child) = wait_loop child (w2 child) := by
      rw [← wait_loop_scrub child (w1 child), ← wait_loop_scrub child (w2 child),
        h child]
    simp [run_in_pty, hcw]

theorem C10_witness :
    run_in_pty (Except.ok ⟨0, ForkResult.Parent 4⟩) (fun _ => Except.ok ())
        (fun _ => [WaitResult.ok (WaitStatus.Signaled 4 Signal.SIGKILL true)]) =
      run_in_pty (Except.ok ⟨0, ForkResult.Parent 4⟩) (fun _ => Except.ok ())
        (fun _ => [WaitResult.ok (WaitStatus.Signaled 4 Signal.SIGKILL false)]) :=
  C10_core_dump_ignored (Except.ok ⟨0, ForkResult.Parent 4⟩) (fun _ => Except.ok ())
    (fun _ => [WaitResult.ok (WaitStatus.Signaled 4 Signal.SIGKILL true)])
    (fun _ => [WaitResult.ok (WaitStatus.Signaled 4 Signal.SIGKILL false)])
    (fun _ => rfl)

end PtyClosure
